import Mathlib

/-!
Verification of the core of `wechat_header_mcp/server.py`: the request-signing
engine (`_sign_request`), the dimension handling of `submit_task`, the crop
geometry (`ImageCropper.get_crop_params`), the crop pipeline
(`ImageCropper.smart_crop_to_ratio` / `get_actual_image_size`), the result
parser (`get_result`) and the polling loop (`generate_image`).

Modelling conventions:
* Bytes are `Nat` values below 256; 32-bit machine words are `Nat` with
  explicit `% 4294967296`.  `hashlib.sha256` and `hmac.new(..., sha256)` are
  embedded as executable functions over byte lists.
* Python `float` arithmetic on aspect ratios is modelled by exact rationals
  (`ℚ`); `2.35` denotes `47/20`.  Python `int()` truncation toward zero is
  `truncInt`, and `//` floor division on integers is `Int.fdiv`.
* Network and image-library effects are explicit parameters: an HTTP fetch is
  a value of an outcome type (transport error / status code plus decoded
  payload), and the PIL crop/thumbnail/JPEG/base64 chain is an opaque
  `PILEncoder` argument.  The current UTC timestamp and date stamp of
  `_sign_request` are passed in explicitly (a frozen clock).
* Python `None` returns become `none`; the `(None, None)` sentinel of
  `_sign_request` is the pair `(none, none)`.
-/

namespace WechatHeader

/-! ### SHA-256 over byte lists (model of `hashlib.sha256`) -/

/-- Right rotation of a 32-bit word. -/
def rotr (n x : ℕ) : ℕ := ((x >>> n) ||| (x <<< (32 - n))) % 4294967296

/-- The 64 SHA-256 round constants (decimal values of FIPS 180-4 `K`). -/
def K256 : List ℕ :=
  [1116352408, 1899447441, 3049323471, 3921009573, 961987163, 1508970993,
   2453635748, 2870763221, 3624381080, 310598401, 607225278, 1426881987,
   1925078388, 2162078206, 2614888103, 3248222580, 3835390401, 4022224774,
   264347078, 604807628, 770255983, 1249150122, 1555081692, 1996064986,
   2554220882, 2821834349, 2952996808, 3210313671, 3336571891, 3584528711,
   113926993, 338241895, 666307205, 773529912, 1294757372, 1396182291,
   1695183700, 1986661051, 2177026350, 2456956037, 2730485921, 2820302411,
   3259730800, 3345764771, 3516065817, 3600352804, 4094571909, 275423344,
   430227734, 506948616, 659060556, 883997877, 958139571, 1322822218,
   1537002063, 1747873779, 1955562222, 2024104815, 2227730452, 2361852424,
   2428436474, 2756734187, 3204031479, 3329325298]

/-- The initial SHA-256 hash state (decimal values of FIPS 180-4 `H⁰`). -/
def H256 : List ℕ :=
  [1779033703, 3144134277, 1013904242, 2773480762,
   1359893119, 2600822924, 528734635, 1541459225]

/-- Group a byte list into big-endian 32-bit words. -/
def wordsOfBytes : List ℕ → List ℕ
  | b0 :: b1 :: b2 :: b3 :: rest =>
      (((b0 * 256 + b1) * 256 + b2) * 256 + b3) :: wordsOfBytes rest
  | _ => []

/-- Extend the 16 words of a block to the 64-entry message schedule. -/
def buildSchedule (ws : List ℕ) : List ℕ :=
  (List.range 48).foldl
    (fun w i =>
      let t := i + 16
      let x15 := w.getD (t - 15) 0
      let x2 := w.getD (t - 2) 0
      let s0 := (rotr 7 x15) ^^^ (rotr 18 x15) ^^^ (x15 >>> 3)
      let s1 := (rotr 17 x2) ^^^ (rotr 19 x2) ^^^ (x2 >>> 10)
      w ++ [(w.getD (t - 16) 0 + s0 + w.getD (t - 7) 0 + s1) % 4294967296])
    ws

/-- One SHA-256 compression step over a 64-byte block. -/
def compressBlock (H : List ℕ) (block : List ℕ) : List ℕ :=
  let w := buildSchedule (wordsOfBytes block)
  let init : ℕ × ℕ × ℕ × ℕ × ℕ × ℕ × ℕ × ℕ :=
    (H.getD 0 0, H.getD 1 0, H.getD 2 0, H.getD 3 0, H.getD 4 0, H.getD 5 0, H.getD 6 0, H.getD 7 0)
  let fin := (List.zip w K256).foldl
    (fun st wk =>
      let (a, b, c, d, e, f, g, hh) := st
      let S1 := (rotr 6 e) ^^^ (rotr 11 e) ^^^ (rotr 25 e)
      let ch := (e &&& f) ^^^ ((e ^^^ 4294967295) &&& g)
      let temp1 := (hh + S1 + ch + wk.2 + wk.1) % 4294967296
      let S0 := (rotr 2 a) ^^^ (rotr 13 a) ^^^ (rotr 22 a)
      let maj := (a &&& b) ^^^ (a &&& c) ^^^ (b &&& c)
      let temp2 := (S0 + maj) % 4294967296
      ((temp1 + temp2) % 4294967296, a, b, c, (d + temp1) % 4294967296, e, f, g))
    init
  match fin with
  | (a, b, c, d, e, f, g, hh) =>
      [(H.getD 0 0 + a) % 4294967296, (H.getD 1 0 + b) % 4294967296,
       (H.getD 2 0 + c) % 4294967296, (H.getD 3 0 + d) % 4294967296,
       (H.getD 4 0 + e) % 4294967296, (H.getD 5 0 + f) % 4294967296,
       (H.getD 6 0 + g) % 4294967296, (H.getD 7 0 + hh) % 4294967296]

/-- SHA-256 padding: a 1 bit, zeros, and the 64-bit big-endian bit length. -/
def padMessage (msg : List ℕ) : List ℕ :=
  let L := msg.length
  let k := (119 - L % 64) % 64
  let bitLen := 8 * L
  msg ++ [128] ++ List.replicate k 0 ++
    [(bitLen >>> 56) % 256, (bitLen >>> 48) % 256, (bitLen >>> 40) % 256, (bitLen >>> 32) % 256,
     (bitLen >>> 24) % 256, (bitLen >>> 16) % 256, (bitLen >>> 8) % 256, bitLen % 256]

/-- Fold the compression function over the 64-byte blocks of a padded message. -/
def sha256Chunks (H : List ℕ) (msg : List ℕ) : List ℕ :=
  match msg with
  | [] => H
  | b :: rest =>
      sha256Chunks (compressBlock H ((b :: rest).take 64)) ((b :: rest).drop 64)
termination_by msg.length
decreasing_by simp [List.length_drop]; omega

/-- Big-endian bytes of a 32-bit word. -/
def wordBytes (w : ℕ) : List ℕ := [(w >>> 24) % 256, (w >>> 16) % 256, (w >>> 8) % 256, w % 256]

/-- SHA-256 digest (32 bytes) of a byte list; model of `hashlib.sha256(...).digest()`. -/
def sha256 (msg : List ℕ) : List ℕ :=
  (sha256Chunks H256 (padMessage msg)).foldr (fun w acc => wordBytes w ++ acc) []

/-- HMAC-SHA256; model of `hmac.new(key, msg, hashlib.sha256).digest()`. -/
def hmacSha256 (key msg : List ℕ) : List ℕ :=
  let k0 := if 64 < key.length then sha256 key else key
  let kpad := k0 ++ List.replicate (64 - k0.length) 0
  let ipadded := kpad.map (fun b => b ^^^ 0x36)
  let opadded := kpad.map (fun b => b ^^^ 0x5c)
  sha256 (opadded ++ sha256 (ipadded ++ msg))

/-- Lowercase hex digit: `0`-`9` for values below ten, `a`-`f` above. -/
def hexDigit (n : ℕ) : Char :=
  if n < 10 then Char.ofNat (48 + n) else Char.ofNat (87 + n)

/-- Two-character lowercase hex rendering of one byte. -/
def hexByte (b : ℕ) : String := String.mk [hexDigit (b / 16), hexDigit (b % 16)]

/-- Lowercase hex string of a byte list; model of `.hexdigest()`. -/
def hexDigest (bs : List ℕ) : String := String.join (bs.map hexByte)

/-- UTF-8 encoding of one character. -/
def utf8Char (c : Char) : List ℕ :=
  let n := c.toNat
  if n < 128 then [n]
  else if n < 2048 then [192 + n / 64, 128 + n % 64]
  else if n < 65536 then [224 + n / 4096, 128 + (n / 64) % 64, 128 + n % 64]
  else [240 + n / 262144, 128 + (n / 4096) % 64, 128 + (n / 64) % 64, 128 + n % 64]

/-- UTF-8 bytes of a string; model of `str.encode('utf-8')`. -/
def strBytes (s : String) : List ℕ := s.data.foldr (fun c acc => utf8Char c ++ acc) []

/-! ### SignatureEngine: `JiemengAPIClient._sign_request` (server.py lines 326-388) -/

/-- Stable insertion of a query parameter into a key-sorted list. -/
def insertParam (p : String × String) : List (String × String) → List (String × String)
  | [] => [p]
  | q :: rest => if p.1 ≤ q.1 then p :: q :: rest else q :: insertParam p rest

/-- Sort query parameters by key; model of `sorted(query_params.items())`
(dict keys are unique, so sorting by key alone is faithful). -/
def sortParams (l : List (String × String)) : List (String × String) :=
  l.foldr insertParam []

/-- `'&'.join([f"{k}={v}" for k, v in sorted(query_params.items())])`. -/
def canonicalQuery (query_params : List (String × String)) : String :=
  String.intercalate "&" ((sortParams query_params).map (fun kv => kv.1 ++ "=" ++ kv.2))

/-- The fixed signed-headers list of `_sign_request`. -/
def signedHeadersList : String := "content-type;host;x-content-sha256;x-date"

/-- `hashlib.sha256(body.encode('utf-8')).hexdigest()`. -/
def payloadHash (body : String) : String := hexDigest (sha256 (strBytes body))

/-- The canonical headers block of `_sign_request`. -/
def canonicalHeaders (body current_date : String) : String :=
  "content-type:" ++ "application/json" ++ "\n" ++
  "host:visual.volcengineapi.com\n" ++
  "x-content-sha256:" ++ payloadHash body ++ "\n" ++
  "x-date:" ++ current_date ++ "\n"

/-- The canonical request string of `_sign_request`. -/
def canonicalRequest (query_params : List (String × String)) (body current_date : String) : String :=
  "POST\n" ++ "/" ++ "\n" ++ canonicalQuery query_params ++ "\n" ++
  canonicalHeaders body current_date ++ "\n" ++ signedHeadersList ++ "\n" ++ payloadHash body

/-- `credential_scope = datestamp + '/' + 'cn-north-1' + '/' + 'cv' + '/' + 'request'`. -/
def credentialScope (datestamp : String) : String :=
  datestamp ++ "/" ++ "cn-north-1" ++ "/" ++ "cv" ++ "/" ++ "request"

/-- The string-to-sign of `_sign_request`. -/
def stringToSign (query_params : List (String × String)) (body current_date datestamp : String) :
    String :=
  "HMAC-SHA256" ++ "\n" ++ current_date ++ "\n" ++ credentialScope datestamp ++ "\n" ++
  hexDigest (sha256 (strBytes (canonicalRequest query_params body current_date)))

/-- The nested helper `sign(key, msg)` of `_sign_request`. -/
def signStep (key : List ℕ) (msg : String) : List ℕ := hmacSha256 key (strBytes msg)

/-- The nested helper `getSignatureKey` of `_sign_request`: the 4-stage
HMAC-SHA256 key-derivation chain. -/
def getSignatureKey (key dateStamp regionName serviceName : String) : List ℕ :=
  let kDate := signStep (strBytes key) dateStamp
  let kRegion := signStep kDate regionName
  let kService := signStep kRegion serviceName
  let kSigning := signStep kService "request"
  kSigning

/-- The headers dict built by `_sign_request`. -/
structure SignedHeaders where
  xDate : String
  authorization : String
  xContentSha256 : String
  contentType : String
deriving DecidableEq

/-- `_sign_request(query_params, body)` with the frozen clock passed in as
`current_date`/`datestamp`.  Credentials are `Option String` (`None` when the
environment variable is unset); the Python `(None, None)` sentinel is
`(none, none)`. -/
def sign_request (access_key secret_key : Option String)
    (query_params : List (String × String)) (body current_date datestamp : String) :
    Option SignedHeaders × Option String :=
  match access_key, secret_key with
  | some ak, some sk =>
      let signature :=
        hexDigest (hmacSha256 (getSignatureKey sk datestamp "cn-north-1" "cv")
          (strBytes (stringToSign query_params body current_date datestamp)))
      let authorization_header :=
        "HMAC-SHA256" ++ " " ++ "Credential=" ++ ak ++ "/" ++ credentialScope datestamp ++
        ", " ++ "SignedHeaders=" ++ signedHeadersList ++ ", " ++ "Signature=" ++ signature
      (some { xDate := current_date, authorization := authorization_header,
              xContentSha256 := payloadHash body, contentType := "application/json" },
       some ("https://visual.volcengineapi.com?" ++ canonicalQuery query_params))
  | _, _ => (none, none)

/-! ### CropGeometry: `ImageCropper.get_crop_params` (lines 147-180) -/

/-- Python `int()` truncation toward zero on an exact rational. -/
def truncInt (q : ℚ) : ℤ := if q < 0 then ⌈q⌉ else ⌊q⌋

/-- The dict returned by `get_crop_params`. -/
structure CropParams where
  x : ℤ
  y : ℤ
  width : ℤ
  height : ℤ
  crop_needed : Bool
deriving DecidableEq

/-- `ImageCropper.get_crop_params(original_width, original_height, target_ratio)`. -/
def get_crop_params (original_width original_height : ℤ) (target_ratio : ℚ) : CropParams :=
  if (original_width : ℚ) / (original_height : ℚ) ≥ target_ratio then
    let new_width := truncInt ((original_height : ℚ) * target_ratio)
    let x_offset := (original_width - new_width).fdiv 2
    { x := x_offset, y := 0, width := new_width, height := original_height, crop_needed := true }
  else
    let new_height := truncInt ((original_width : ℚ) / target_ratio)
    let y_offset := (original_height - new_height).fdiv 2
    { x := 0, y := y_offset, width := original_width, height := new_height, crop_needed := true }

/-! ### CropPipeline: `get_actual_image_size` and `smart_crop_to_ratio` (lines 182-311) -/

/-- Outcome of an HTTP GET for an image: a transport error (the request
raised), or a status code together with the decoded pixel dimensions
(`none` when `Image.open` raises on the bytes). -/
inductive ImgFetch where
  | error : ImgFetch
  | response (statusCode : ℕ) (decoded : Option (ℕ × ℕ)) : ImgFetch

/-- `ImageCropper.get_actual_image_size(image_url)` over the fetch outcome. -/
def get_actual_image_size (fetch : ImgFetch) : Option (ℕ × ℕ) :=
  match fetch with
  | .error => none
  | .response status decoded => if status = 200 then decoded else none

/-- Opaque model of the external PIL crop / thumbnail / JPEG / base64 chain:
given the decoded source dimensions, the crop parameters, the `max_size`
bound and the JPEG quality, it yields the base64 payload and the final
(post-thumbnail) dimensions. -/
structure PILEncoder where
  render : ℕ × ℕ → CropParams → ℕ → ℕ → String × (ℕ × ℕ)

/-- The result dict of `smart_crop_to_ratio`; keys that a branch may or may
not add are `Option` fields. -/
structure CropOutput where
  original_url : String
  actual_size : String
  crop_params : CropParams
  cropped_size : String
  target_ratio : ℚ
  output_format : String
  crop_url : Option String
  usage : Option String
  cropped_base64 : Option String
  base64_length : Option ℕ
  compressed_size : Option String
deriving DecidableEq

/-- `ImageCropper.smart_crop_to_ratio(image_url, target_ratio, output_format)`
with the two HTTP fetches (`probe` for `get_actual_image_size`, `refetch` for
the base64 branches) passed as outcomes and PIL as an opaque encoder. -/
def smart_crop_to_ratio (enc : PILEncoder) (image_url : String) (target_ratio : ℚ)
    (output_format : String) (probe refetch : ImgFetch) : Option CropOutput :=
  match get_actual_image_size probe with
  | none => none
  | some (actual_width, actual_height) =>
    let crop_params := get_crop_params (actual_width : ℤ) (actual_height : ℤ) target_ratio
    let base : CropOutput :=
      { original_url := image_url
        actual_size := toString actual_width ++ "x" ++ toString actual_height
        crop_params := crop_params
        cropped_size := toString crop_params.width ++ "x" ++ toString crop_params.height
        target_ratio := target_ratio
        output_format := output_format
        crop_url := none, usage := none, cropped_base64 := none
        base64_length := none, compressed_size := none }
    if output_format = "params" then
      some { base with
        crop_url := some (image_url ++ "#crop=" ++ toString crop_params.x ++ "," ++
          toString crop_params.y ++ "," ++ toString crop_params.width ++ "," ++
          toString crop_params.height)
        usage := some "使用图片编辑软件按参数裁剪，或使用支持URL参数的图片服务" }
    else if output_format = "base64" then
      match refetch with
      | .error => none
      | .response status decoded =>
        if status = 200 then
          match decoded with
          | none => none
          | some dims =>
            let rendered := enc.render dims crop_params 800 85
            some { base with
              cropped_base64 := some ("data:image/jpeg;base64," ++ rendered.1)
              base64_length := some rendered.1.length
              usage := some "Base64编码图片，可直接使用（已压缩优化）" }
        else some base
    else if output_format = "compressed" then
      match refetch with
      | .error => none
      | .response status decoded =>
        if status = 200 then
          match decoded with
          | none => none
          | some dims =>
            let rendered := enc.render dims crop_params 600 75
            some { base with
              cropped_base64 := some ("data:image/jpeg;base64," ++ rendered.1)
              base64_length := some rendered.1.length
              compressed_size := some (toString rendered.2.1 ++ "x" ++ toString rendered.2.2)
              usage := some "压缩版本Base64图片，适合快速预览和使用" }
        else some base
    else some base

/-! ### RemoteTaskClient: dimension handling of `submit_task` (lines 418-434) -/

/-- The width/height adjustment block of `submit_task` for the case where both
are given.  The first two `let area` lines mirror the source exactly: the
clamped area is stored back into the local `area` and never read again. -/
def adjust_dimensions (width height : ℤ) : ℤ × ℤ :=
  let area := width * height
  let area := if area < 1024 * 1024 then 1024 * 1024
    else if area > 4096 * 4096 then 4096 * 4096
    else area
  let ratio : ℚ := (width : ℚ) / (height : ℚ)
  if ratio < 1 / 3 then (width, width * 3)
  else if ratio > 3 then (height * 3, height)
  else (width, height)

/-! ### RemoteTaskClient: `get_result` (lines 464-501) -/

/-- Python falsiness of an optional string (`not x`). -/
def falsy : Option String → Bool
  | none => true
  | some s => s == ""

/-- The `data` object of a `CVSync2AsyncGetResult` response body. -/
structure RespData where
  status : Option String
  image_urls : Option (List String)
deriving DecidableEq

/-- A parsed `CVSync2AsyncGetResult` response body. -/
structure RespBody where
  code : Option ℤ
  data : Option RespData
deriving DecidableEq

/-- Outcome of the HTTP POST in `get_result`: a transport error, or a status
code with the parsed JSON body (`none` when `response.json()` raises). -/
inductive FetchOutcome where
  | error : FetchOutcome
  | response (statusCode : ℕ) (body : Option RespBody) : FetchOutcome

/-- `JiemengAPIClient.get_result(task_id)` over the response outcome. -/
def get_result (access_key secret_key : Option String) (outcome : FetchOutcome) :
    Option String :=
  if falsy access_key || falsy secret_key then none
  else
    match outcome with
    | .error => none
    | .response status body =>
      if status = 200 then
        match body with
        | none => none
        | some result =>
          if result.code = some 10000 then
            let d := result.data.getD { status := none, image_urls := none }
            if d.status = some "done" then
              match d.image_urls.getD [] with
              | [] => none
              | u :: _ => some u
            else none
          else none
      else none

/-! ### TaskPoller: `generate_image` (lines 503-535) -/

/-- The result dict of `generate_image`; `elapsed` is the model wall clock at
return time (the loop advances it by the fixed 5-unit `asyncio.sleep`). -/
structure GenResult where
  status : String
  message : Option String
  image_url : Option String
  task_id : Option String
  elapsed : ℕ
deriving DecidableEq

/-- The `while time.time() - start_time < max_wait` polling loop of
`generate_image`: `fetch t` is what `get_result` returns at elapsed time `t`. -/
def poll_loop (fetch : ℕ → Option String) (task_id : String) (max_wait elapsed : ℕ) :
    GenResult :=
  if h : elapsed < max_wait then
    match fetch elapsed with
    | some url => { status := "success", message := none, image_url := some url,
                    task_id := some task_id, elapsed := elapsed }
    | none => poll_loop fetch task_id max_wait (elapsed + 5)
  else
    { status := "timeout"
      message := some ("图片生成超时（" ++ toString max_wait ++ "秒），请稍后查看结果")
      image_url := none, task_id := some task_id, elapsed := elapsed }
termination_by max_wait - elapsed
decreasing_by omega

/-- `JiemengAPIClient.generate_image` with the submission outcome and the
result fetcher passed explicitly. -/
def generate_image (submit : Option String) (fetch : ℕ → Option String) (max_wait : ℕ) :
    GenResult :=
  match submit with
  | some task_id =>
    if task_id = "" then
      { status := "error", message := some "图片生成任务提交失败，请稍后重试",
        image_url := none, task_id := none, elapsed := 0 }
    else poll_loop fetch task_id max_wait 0
  | none =>
    { status := "error", message := some "图片生成任务提交失败，请稍后重试",
      image_url := none, task_id := none, elapsed := 0 }

/-! ### Claim theorems -/

/-- C1 (code bug): the claim says `submit_task` clamps the transmitted pixel
area into `[1024*1024, 4096*4096]`; in the code the clamped area is assigned
to a local that is never read, so `width=10000, height=10000` is transmitted
unchanged with area `100000000 > 4096*4096`.  Moreover `width=100, height=1`
is corrected to `(3, 1)`: the ratio does become `≤ 3`, but by shrinking the
width, not by increasing the height. -/
theorem c1_area_clamp_dead_store :
    adjust_dimensions 10000 10000 = (10000, 10000) ∧
    (10000 * 10000 : ℤ) > 4096 * 4096 ∧
    adjust_dimensions 100 1 = (3, 1) := by
  refine ⟨?_, by norm_num, ?_⟩ <;> · unfold adjust_dimensions; norm_num

/-- C2 (confirmed): for any credentials, query parameters, body and frozen
clock, `_sign_request` produces exactly the Authorization header
`HMAC-SHA256 Credential=<accessKey>/<scope>, SignedHeaders=<list>,
Signature=<sig>`, where `<sig>` is the hex HMAC-SHA256 of the string-to-sign
under the 4-stage key chain secret → date stamp → "cn-north-1" → "cv" →
"request". -/
theorem c2_sign_request_authorization (ak sk body cd ds : String)
    (qp : List (String × String)) :
    (sign_request (some ak) (some sk) qp body cd ds).1 = some
      { xDate := cd
        authorization :=
          "HMAC-SHA256" ++ " " ++ "Credential=" ++ ak ++ "/" ++
          (ds ++ "/" ++ "cn-north-1" ++ "/" ++ "cv" ++ "/" ++ "request") ++ ", " ++
          "SignedHeaders=" ++ "content-type;host;x-content-sha256;x-date" ++ ", " ++
          "Signature=" ++
          hexDigest (hmacSha256
            (hmacSha256
              (hmacSha256
                (hmacSha256
                  (hmacSha256 (strBytes sk) (strBytes ds))
                  (strBytes "cn-north-1"))
                (strBytes "cv"))
              (strBytes "request"))
            (strBytes (stringToSign qp body cd ds)))
        xContentSha256 := hexDigest (sha256 (strBytes body))
        contentType := "application/json" } := rfl

/-- C6 counterexample: with both credentials present but empty strings,
`_sign_request` does not short-circuit to the `(None, None)` sentinel — it
produces a signature, because the code only tests `is None`, not emptiness. -/
theorem c6_counterexample_empty_credentials :
    ((sign_request (some "") (some "") [] "" "20250101T000000Z" "20250101").1.isSome = true) ∧
    ((sign_request (some "") (some "") [] "" "20250101T000000Z" "20250101").2.isSome = true) :=
  ⟨rfl, rfl⟩

/-- C6 (corrected): whenever either credential is absent (`None`),
`_sign_request` returns the `(None, None)` sentinel without computing a
signature; empty-but-present credentials are not caught here (the callers'
falsiness checks catch them before signing). -/
theorem c6_missing_credentials_sentinel :
    (∀ (sk : Option String) (qp : List (String × String)) (body cd ds : String),
        sign_request none sk qp body cd ds = (none, none)) ∧
    (∀ (ak : Option String) (qp : List (String × String)) (body cd ds : String),
        sign_request ak none qp body cd ds = (none, none)) := by
  constructor
  · intro sk qp body cd ds; cases sk <;> rfl
  · intro ak qp body cd ds; cases ak <;> rfl

/-- On a non-negative rational, Python `int()` truncation is the floor. -/
theorem truncInt_of_nonneg {q : ℚ} (hq : 0 ≤ q) : truncInt q = ⌊q⌋ :=
  if_neg (not_lt.mpr hq)

/-- Closed form of `get_crop_params` on positive inputs: the `int()`
truncations are floors. -/
theorem get_crop_params_eq (w h : ℤ) (r : ℚ) (hw : 0 < w) (hh : 0 < h) (hr : 0 < r) :
    get_crop_params w h r =
      if (w : ℚ) / (h : ℚ) ≥ r then
        { x := (w - ⌊(h : ℚ) * r⌋).fdiv 2, y := 0, width := ⌊(h : ℚ) * r⌋,
          height := h, crop_needed := true }
      else
        { x := 0, y := (h - ⌊(w : ℚ) / r⌋).fdiv 2, width := w, height := ⌊(w : ℚ) / r⌋,
          crop_needed := true } := by
  have hwq : (0 : ℚ) < (w : ℚ) := by exact_mod_cast hw
  have hhq : (0 : ℚ) < (h : ℚ) := by exact_mod_cast hh
  unfold get_crop_params
  split_ifs with hbr
  · rw [truncInt_of_nonneg (le_of_lt (mul_pos hhq hr))]
  · rw [truncInt_of_nonneg (le_of_lt (div_pos hwq hr))]

/-- C3 (confirmed): on positive inputs `get_crop_params` returns exactly the
claimed rectangles — wide sources keep full height with width
`⌊sourceHeight * targetRatio⌋` centered horizontally, otherwise full width
with height `⌊sourceWidth / targetRatio⌋` centered vertically — and in
particular `get_crop_params 2000 1000 2.35 = (x 0, y 74, 2000 × 851)`. -/
theorem c3_crop_params_formula :
    (∀ (w h : ℤ) (r : ℚ), 0 < w → 0 < h → 0 < r →
      get_crop_params w h r =
        if (w : ℚ) / (h : ℚ) ≥ r then
          { x := (w - ⌊(h : ℚ) * r⌋).fdiv 2, y := 0, width := ⌊(h : ℚ) * r⌋,
            height := h, crop_needed := true }
        else
          { x := 0, y := (h - ⌊(w : ℚ) / r⌋).fdiv 2, width := w, height := ⌊(w : ℚ) / r⌋,
            crop_needed := true }) ∧
    get_crop_params 2000 1000 (47 / 20) =
      { x := 0, y := 74, width := 2000, height := 851, crop_needed := true } := by
  constructor
  · intro w h r hw hh hr
    exact get_crop_params_eq w h r hw hh hr
  · unfold get_crop_params truncInt
    norm_num
    decide

/-- Witness for C3 at concrete inputs 30 × 10 with target ratio 2. -/
theorem c3_crop_params_formula_witness :
    get_crop_params 30 10 2 = { x := 5, y := 0, width := 20, height := 10, crop_needed := true } := by
  rw [c3_crop_params_formula.1 30 10 2 (by norm_num) (by norm_num) (by norm_num)]
  norm_num
  decide

/-- C4 (confirmed): when the target ratio equals the source ratio exactly,
`get_crop_params` returns the full source bounds with zero offsets. -/
theorem c4_exact_ratio_full_bounds (w h : ℤ) (r : ℚ) (hw : 0 < w) (hh : 0 < h)
    (hr : r = (w : ℚ) / (h : ℚ)) :
    get_crop_params w h r = { x := 0, y := 0, width := w, height := h, crop_needed := true } := by
  have hhq : (0 : ℚ) < (h : ℚ) := by exact_mod_cast hh
  have hwq : (0 : ℚ) ≤ (w : ℚ) := by exact_mod_cast hw.le
  have hcond : (w : ℚ) / (h : ℚ) ≥ r := ge_of_eq hr.symm
  have hmul : (h : ℚ) * r = (w : ℚ) := by
    rw [hr, mul_comm]
    exact div_mul_cancel₀ _ (ne_of_gt hhq)
  unfold get_crop_params
  rw [if_pos hcond]
  show CropParams.mk ((w - truncInt ((h : ℚ) * r)).fdiv 2) 0 (truncInt ((h : ℚ) * r)) h true = _
  rw [hmul, truncInt_of_nonneg hwq, Int.floor_intCast, sub_self, Int.zero_fdiv]

/-- Witness for C4 at the concrete exact-ratio input 4 × 2 with ratio 2. -/
theorem c4_exact_ratio_full_bounds_witness :
    get_crop_params 4 2 2 = { x := 0, y := 0, width := 4, height := 2, crop_needed := true } :=
  c4_exact_ratio_full_bounds 4 2 2 (by norm_num) (by norm_num) (by norm_num)

/-- C5 counterexample: at source 100 × 100 with target ratio 1 the rectangle
is the full source, so BOTH width and height equal the corresponding source
dimension — "exactly one of width/height equals the source dimension" is
false as stated. -/
theorem c5_counterexample_both_axes_full :
    (get_crop_params 100 100 1).width = 100 ∧ (get_crop_params 100 100 1).height = 100 ∧
    ¬ (((get_crop_params 100 100 1).width = 100 ∧ (get_crop_params 100 100 1).height ≠ 100) ∨
       ((get_crop_params 100 100 1).width ≠ 100 ∧ (get_crop_params 100 100 1).height = 100)) := by
  have hval : get_crop_params 100 100 1 =
      { x := 0, y := 0, width := 100, height := 100, crop_needed := true } := by
    unfold get_crop_params truncInt
    norm_num
  simp [hval]

/-- C5 (amended, proved): on positive inputs the returned rectangle is fully
contained in the source bounds — `0 ≤ x`, `0 ≤ y`, `x + width ≤ sourceWidth`,
`y + height ≤ sourceHeight`, hence `width * height ≤` the source pixel area —
and AT LEAST one of width/height equals the corresponding source dimension
(at most one axis is trimmed; at an exact ratio none is). -/
theorem c5_crop_rect_in_bounds (w h : ℤ) (r : ℚ) (hw : 0 < w) (hh : 0 < h) (hr : 0 < r) :
    0 ≤ (get_crop_params w h r).x ∧ 0 ≤ (get_crop_params w h r).y ∧
    (get_crop_params w h r).x + (get_crop_params w h r).width ≤ w ∧
    (get_crop_params w h r).y + (get_crop_params w h r).height ≤ h ∧
    (get_crop_params w h r).width * (get_crop_params w h r).height ≤ w * h ∧
    ((get_crop_params w h r).width = w ∨ (get_crop_params w h r).height = h) := by
  have hwq : (0 : ℚ) < (w : ℚ) := by exact_mod_cast hw
  have hhq : (0 : ℚ) < (h : ℚ) := by exact_mod_cast hh
  rw [get_crop_params_eq w h r hw hh hr]
  split_ifs with hbr
  all_goals dsimp only
  · set n := ⌊(h : ℚ) * r⌋ with hn
    have hn0 : 0 ≤ n := Int.le_floor.mpr (by push_cast; exact (mul_pos hhq hr).le)
    have hnw : n ≤ w := by
      have hle : (h : ℚ) * r ≤ (w : ℚ) := by
        rw [ge_iff_le, le_div_iff₀ hhq] at hbr
        rw [mul_comm]
        linarith
      have hf := Int.floor_le_floor hle
      rwa [Int.floor_intCast] at hf
    have hfd0 : 0 ≤ (w - n).fdiv 2 := Int.fdiv_nonneg (by omega) (by omega)
    have hfd1 : (w - n).fdiv 2 ≤ w - n := by
      rw [Int.fdiv_eq_ediv _ (by omega : (0 : ℤ) ≤ 2)]
      exact Int.ediv_le_self _ (by omega)
    exact ⟨hfd0, le_refl 0, by omega, by omega,
      mul_le_mul_of_nonneg_right hnw hh.le, Or.inr rfl⟩
  · set n := ⌊(w : ℚ) / r⌋ with hn
    have hn0 : 0 ≤ n := Int.le_floor.mpr (by push_cast; exact (div_pos hwq hr).le)
    have hnh : n ≤ h := by
      have hlt : (w : ℚ) / r < (h : ℚ) := by
        rw [ge_iff_le, not_le] at hbr
        rw [div_lt_iff₀ hr, mul_comm]
        exact (div_lt_iff₀ hhq).mp hbr
      have hf : n < h := Int.floor_lt.mpr hlt
      omega
    have hfd0 : 0 ≤ (h - n).fdiv 2 := Int.fdiv_nonneg (by omega) (by omega)
    have hfd1 : (h - n).fdiv 2 ≤ h - n := by
      rw [Int.fdiv_eq_ediv _ (by omega : (0 : ℤ) ≤ 2)]
      exact Int.ediv_le_self _ (by omega)
    exact ⟨le_refl 0, hfd0, by omega, by omega,
      mul_le_mul_of_nonneg_left hnh hw.le, Or.inl rfl⟩

/-- Witness for C5 at the concrete inputs 2000 × 1000 with target ratio 2.35. -/
theorem c5_crop_rect_in_bounds_witness :
    0 ≤ (get_crop_params 2000 1000 (47 / 20)).x ∧
    0 ≤ (get_crop_params 2000 1000 (47 / 20)).y ∧
    (get_crop_params 2000 1000 (47 / 20)).x + (get_crop_params 2000 1000 (47 / 20)).width ≤ 2000 ∧
    (get_crop_params 2000 1000 (47 / 20)).y + (get_crop_params 2000 1000 (47 / 20)).height ≤ 1000 ∧
    (get_crop_params 2000 1000 (47 / 20)).width * (get_crop_params 2000 1000 (47 / 20)).height ≤
      2000 * 1000 ∧
    ((get_crop_params 2000 1000 (47 / 20)).width = 2000 ∨
      (get_crop_params 2000 1000 (47 / 20)).height = 1000) :=
  c5_crop_rect_in_bounds 2000 1000 (47 / 20) (by norm_num) (by norm_num) (by norm_num)

/-- C7 (confirmed): with configured (non-falsy) credentials, `get_result`
returns a URL exactly when the HTTP status is 200, the body parsed, the
application code is 10000, the job status is `"done"` and the image-URL list
is non-empty — and then the URL is the first list element.  Every other
outcome (transport error, parse error, other status codes, other job states,
empty list) yields `none` without raising. -/
theorem c7_get_result_success_iff (access_key secret_key : Option String) (o : FetchOutcome)
    (h1 : falsy access_key = false) (h2 : falsy secret_key = false) (u : String) :
    get_result access_key secret_key o = some u ↔
      ∃ b : RespBody, o = FetchOutcome.response 200 (some b) ∧ b.code = some 10000 ∧
        (b.data.getD { status := none, image_urls := none }).status = some "done" ∧
        ∃ rest : List String,
          (b.data.getD { status := none, image_urls := none }).image_urls.getD [] =
            u :: rest := by
  unfold get_result
  rw [h1, h2]
  simp only [Bool.or_self, Bool.false_eq_true, if_false]
  cases o with
  | error =>
    simp only [reduceCtorEq, false_and, exists_false, iff_false]
  | response status body =>
    dsimp only
    constructor
    · intro hres
      by_cases hs : status = 200
      · subst hs
        cases body with
        | none => simp at hres
        | some result =>
          rw [if_pos rfl] at hres
          dsimp only at hres
          by_cases hc : result.code = some 10000
          · rw [if_pos hc] at hres
            by_cases hd :
                (result.data.getD { status := none, image_urls := none }).status = some "done"
            · rw [if_pos hd] at hres
              cases hurl :
                  (result.data.getD { status := none, image_urls := none }).image_urls.getD []
                  with
              | nil => rw [hurl] at hres; simp at hres
              | cons v rest =>
                rw [hurl] at hres
                simp only [Option.some.injEq] at hres
                subst hres
                exact ⟨result, rfl, hc, hd, rest, hurl⟩
            · rw [if_neg hd] at hres; simp at hres
          · rw [if_neg hc] at hres; simp at hres
      · rw [if_neg hs] at hres; simp at hres
    · rintro ⟨b, hb, hc, hd, rest, hurl⟩
      injection hb with hb1 hb2
      subst hb1
      subst hb2
      simp [hc, hd, hurl]

/-- Witness for C7: a 200 response with code 10000, status `"done"` and one
image URL makes `get_result` return that URL. -/
theorem c7_get_result_success_iff_witness :
    get_result (some "AK") (some "SK")
      (FetchOutcome.response 200 (some
        { code := some 10000,
          data := some { status := some "done",
                         image_urls := some ["https://img.example/1.png"] } })) =
      some "https://img.example/1.png" :=
  (c7_get_result_success_iff (some "AK") (some "SK") _ rfl rfl "https://img.example/1.png").mpr
    ⟨{ code := some 10000,
       data := some { status := some "done",
                      image_urls := some ["https://img.example/1.png"] } },
      rfl, rfl, rfl, [], rfl⟩

/-- The polling loop with a result fetcher that never yields a URL always
terminates in timeout, at an elapsed time below `max_wait + 5`. -/
theorem poll_loop_never_ready (fetch : ℕ → Option String) (tid : String) (max_wait : ℕ)
    (hf : ∀ t, fetch t = none) (e : ℕ) (he : e < max_wait + 5) :
    ∃ E, poll_loop fetch tid max_wait e =
        { status := "timeout"
          message := some ("图片生成超时（" ++ toString max_wait ++ "秒），请稍后查看结果")
          image_url := none, task_id := some tid, elapsed := E } ∧
      max_wait ≤ E ∧ E < max_wait + 5 := by
  by_cases hlt : e < max_wait
  · obtain ⟨E, hE, hE1, hE2⟩ := poll_loop_never_ready fetch tid max_wait hf (e + 5) (by omega)
    refine ⟨E, ?_, hE1, hE2⟩
    rw [poll_loop, dif_pos hlt, hf e]
    exact hE
  · refine ⟨e, ?_, by omega, he⟩
    rw [poll_loop, dif_neg hlt]
termination_by max_wait - e
decreasing_by omega

/-- C8 (confirmed): when submission yields a (non-empty) task id and the
result fetcher never returns a URL, `generate_image` terminates with a result
of status `"timeout"` carrying the task id, at an elapsed time at least
`max_wait` and strictly within one 5-unit polling interval past `max_wait`. -/
theorem c8_generate_image_timeout (tid : String) (fetch : ℕ → Option String) (max_wait : ℕ)
    (htid : tid ≠ "") (hf : ∀ t, fetch t = none) :
    ∃ E, generate_image (some tid) fetch max_wait =
        { status := "timeout"
          message := some ("图片生成超时（" ++ toString max_wait ++ "秒），请稍后查看结果")
          image_url := none, task_id := some tid, elapsed := E } ∧
      max_wait ≤ E ∧ E < max_wait + 5 := by
  obtain ⟨E, hE, hE1, hE2⟩ := poll_loop_never_ready fetch tid max_wait hf 0 (by omega)
  refine ⟨E, ?_, hE1, hE2⟩
  unfold generate_image
  dsimp only
  rw [if_neg htid]
  exact hE

/-- Witness for C8 with `max_wait = 10` and a stub fetcher: timeout at
elapsed time 10, within one interval past the deadline. -/
theorem c8_generate_image_timeout_witness :
    ∃ E, generate_image (some "T1") (fun _ => none) 10 =
        { status := "timeout"
          message := some ("图片生成超时（" ++ toString 10 ++ "秒），请稍后查看结果")
          image_url := none, task_id := some "T1", elapsed := E } ∧
      10 ≤ E ∧ E < 10 + 5 :=
  c8_generate_image_timeout "T1" (fun _ => none) 10 (by decide) (fun _ => rfl)

/-- C9 (confirmed): whenever the dimension-probe fetch fails — transport
error, non-200 status, or undecodable bytes — `smart_crop_to_ratio` returns
`none`, for every output format. -/
theorem c9_smart_crop_fetch_failure (enc : PILEncoder) (url : String) (r : ℚ) (fmt : String)
    (probe refetch : ImgFetch)
    (hfail : probe = ImgFetch.error ∨
      ∃ status decoded, probe = ImgFetch.response status decoded ∧
        (status ≠ 200 ∨ decoded = none)) :
    smart_crop_to_ratio enc url r fmt probe refetch = none := by
  have hsize : get_actual_image_size probe = none := by
    rcases hfail with hfail | ⟨status, decoded, hfail, hcase⟩
    · rw [hfail]; rfl
    · rw [hfail]
      unfold get_actual_image_size
      dsimp only
      rcases hcase with hs | hd
      · rw [if_neg hs]
      · rw [hd]
        by_cases hs : status = 200
        · rw [if_pos hs]
        · rw [if_neg hs]
  unfold smart_crop_to_ratio
  rw [hsize]

/-- Witness for C9: a transport error on the probe yields `none`. -/
theorem c9_smart_crop_fetch_failure_witness :
    smart_crop_to_ratio { render := fun _ _ _ _ => ("", (0, 0)) } "https://img.example/a.png"
      (47 / 20) "params" ImgFetch.error ImgFetch.error = none :=
  c9_smart_crop_fetch_failure _ _ _ _ _ _ (Or.inl rfl)

/-- C10 (confirmed): an output format outside `params`/`base64`/`compressed`
is not rejected: when the dimension probe succeeds, `smart_crop_to_ratio`
returns the result dict with the crop rectangle, the sizes and the echoed
format, but with no `crop_url`, no `cropped_base64` and no `usage` entry. -/
theorem c10_unknown_format_fields (enc : PILEncoder) (url : String) (r : ℚ) (fmt : String)
    (probe refetch : ImgFetch) (w h : ℕ)
    (hfmt1 : fmt ≠ "params") (hfmt2 : fmt ≠ "base64") (hfmt3 : fmt ≠ "compressed")
    (hsize : get_actual_image_size probe = some (w, h)) :
    smart_crop_to_ratio enc url r fmt probe refetch = some
      { original_url := url
        actual_size := toString w ++ "x" ++ toString h
        crop_params := get_crop_params (w : ℤ) (h : ℤ) r
        cropped_size := toString (get_crop_params (w : ℤ) (h : ℤ) r).width ++ "x" ++
          toString (get_crop_params (w : ℤ) (h : ℤ) r).height
        target_ratio := r
        output_format := fmt
        crop_url := none, usage := none, cropped_base64 := none
        base64_length := none, compressed_size := none } := by
  unfold smart_crop_to_ratio
  rw [hsize]
  simp only [if_neg hfmt1, if_neg hfmt2, if_neg hfmt3]

/-- Witness for C10 at a concrete unknown format `"json"` and a decoded
1000 × 500 probe. -/
theorem c10_unknown_format_fields_witness :
    smart_crop_to_ratio { render := fun _ _ _ _ => ("", (0, 0)) } "https://img.example/a.png"
      (47 / 20) "json" (ImgFetch.response 200 (some (1000, 500))) ImgFetch.error = some
      { original_url := "https://img.example/a.png"
        actual_size := toString (1000 : ℕ) ++ "x" ++ toString (500 : ℕ)
        crop_params := get_crop_params ((1000 : ℕ) : ℤ) ((500 : ℕ) : ℤ) (47 / 20)
        cropped_size := toString (get_crop_params ((1000 : ℕ) : ℤ) ((500 : ℕ) : ℤ) (47 / 20)).width
          ++ "x" ++ toString (get_crop_params ((1000 : ℕ) : ℤ) ((500 : ℕ) : ℤ) (47 / 20)).height
        target_ratio := 47 / 20
        output_format := "json"
        crop_url := none, usage := none, cropped_base64 := none
        base64_length := none, compressed_size := none } :=
  c10_unknown_format_fields _ _ _ _ _ _ 1000 500 (by decide) (by decide) (by decide) rfl

end WechatHeader
